import Mathlib

/-!
Verification of the CanSat telemetry frame decoder
(`src/decoder.py`, function `parse_telemetry_packet`).

The decoder is a pure function from a 36-byte buffer to a record of 16
integer fields, or a length error.  We embed it shallowly: bytes are
natural numbers below 256, a buffer is a `List Nat`, Python's
`int.from_bytes(data[a:b], 'little')` becomes `wordLE data a (b - a)`,
and Python's unbounded integers become `Int` (with `Nat` intermediates
where the source computes on non-negative values).
-/

namespace CanSat

/-- Byte `i` of the buffer (defaulting to 0 past the end; the length
guard in the decoder ensures all accesses are in range). -/
def byteAt (data : List Nat) (i : Nat) : Nat := data.getD i 0

/-- Little-endian word of `len` bytes starting at `start`: the embedding
of Python's `int.from_bytes(data[start:start+len], 'little')`. -/
def wordLE (data : List Nat) (start : Nat) : Nat → Nat
  | 0 => 0
  | n + 1 => byteAt data start + 256 * wordLE data (start + 1) n

/-- Signed 16-bit little-endian integer at byte offset `i`: the embedding
of one component of `struct.unpack('<3h', ...)`. -/
def int16LE (data : List Nat) (i : Nat) : Int :=
  let raw := wordLE data i 2
  if 0x8000 ≤ raw then (raw : Int) - 0x10000 else (raw : Int)

/-- The decoded record, mirroring the `TelemetryPacket` dataclass. -/
@[ext]
structure TelemetryPacket where
  time_ms : Int
  temp_cC : Int
  pressPa : Int
  mag_x : Int
  mag_y : Int
  mag_z : Int
  accel_x : Int
  accel_y : Int
  accel_z : Int
  gyro_x : Int
  gyro_y : Int
  gyro_z : Int
  altitude_cm : Int
  lat_1e7 : Int
  lon_1e7 : Int
  flags : Int
deriving Repr, DecidableEq

/-- The one decode-time error: wrong buffer length, carrying the actual
length observed (the `ValueError` raised on line 28 of the source). -/
inductive DecodeError where
  | invalidLength (got : Nat)
deriving Repr, DecidableEq

/-- Shallow embedding of `parse_telemetry_packet` (decoder.py lines
26-68), transcribed statement by statement. -/
def parse_telemetry_packet (data : List Nat) : Except DecodeError TelemetryPacket :=
  if data.length ≠ 36 then
    .error (.invalidLength data.length)
  else
    let time_ms := wordLE data 0 3
    let temp_press := wordLE data 3 2
    let temp_raw := temp_press &&& 0x3FFF
    let temp_cC : Int := if 0x2000 ≤ temp_raw then (temp_raw : Int) - 0x4000 else (temp_raw : Int)
    let press_p1 := (temp_press >>> 14) &&& 0x03
    let press_p2 := wordLE data 5 2
    let pressPa := (press_p2 <<< 2) ||| press_p1
    let alt_lat1 := wordLE data 25 4
    let altitude_raw := alt_lat1 &&& 0xFFFFF
    let altitude_cm : Int :=
      if 0x80000 ≤ altitude_raw then (altitude_raw : Int) - 0x100000 else (altitude_raw : Int)
    let lat_lon1 := wordLE data 28 4
    let lat_raw := ((lat_lon1 &&& 0x3FFFFFF) <<< 4) ||| (alt_lat1 >>> 20)
    let lat_1e7 : Int :=
      if 0x20000000 ≤ lat_raw then (lat_raw : Int) - 0x40000000 else (lat_raw : Int)
    let lon_flags := wordLE data 32 4
    let lon_raw := (lon_flags >>> 8) ||| ((lat_lon1 >>> 26) <<< 24)
    let lon_1e7 : Int :=
      if 0x20000000 ≤ lon_raw then (lon_raw : Int) - 0x40000000 else (lon_raw : Int)
    let flags := lon_flags &&& 0xFF
    .ok {
      time_ms := (time_ms : Int)
      temp_cC := temp_cC
      pressPa := (pressPa : Int)
      mag_x := int16LE data 7
      mag_y := int16LE data 9
      mag_z := int16LE data 11
      accel_x := int16LE data 13
      accel_y := int16LE data 15
      accel_z := int16LE data 17
      gyro_x := int16LE data 19
      gyro_y := int16LE data 21
      gyro_z := int16LE data 23
      altitude_cm := altitude_cm
      lat_1e7 := lat_1e7
      lon_1e7 := lon_1e7
      flags := (flags : Int)
    }

/-- A well-formed buffer: every entry is a byte value. -/
def isBytes (data : List Nat) : Prop := ∀ b ∈ data, b < 256

/-- The packet produced on the decoder's success path, with every field
written directly in terms of the input words (definitionally equal to
the record built by `parse_telemetry_packet` when the length check
passes). -/
def decodedFields (data : List Nat) : TelemetryPacket where
  time_ms := (wordLE data 0 3 : Int)
  temp_cC :=
    if 0x2000 ≤ wordLE data 3 2 &&& 0x3FFF
    then ((wordLE data 3 2 &&& 0x3FFF : Nat) : Int) - 0x4000
    else ((wordLE data 3 2 &&& 0x3FFF : Nat) : Int)
  pressPa := (((wordLE data 5 2 <<< 2) ||| ((wordLE data 3 2 >>> 14) &&& 0x03) : Nat) : Int)
  mag_x := int16LE data 7
  mag_y := int16LE data 9
  mag_z := int16LE data 11
  accel_x := int16LE data 13
  accel_y := int16LE data 15
  accel_z := int16LE data 17
  gyro_x := int16LE data 19
  gyro_y := int16LE data 21
  gyro_z := int16LE data 23
  altitude_cm :=
    if 0x80000 ≤ wordLE data 25 4 &&& 0xFFFFF
    then ((wordLE data 25 4 &&& 0xFFFFF : Nat) : Int) - 0x100000
    else ((wordLE data 25 4 &&& 0xFFFFF : Nat) : Int)
  lat_1e7 :=
    if 0x20000000 ≤ ((wordLE data 28 4 &&& 0x3FFFFFF) <<< 4) ||| (wordLE data 25 4 >>> 20)
    then ((((wordLE data 28 4 &&& 0x3FFFFFF) <<< 4) ||| (wordLE data 25 4 >>> 20) : Nat) : Int)
         - 0x40000000
    else ((((wordLE data 28 4 &&& 0x3FFFFFF) <<< 4) ||| (wordLE data 25 4 >>> 20) : Nat) : Int)
  lon_1e7 :=
    if 0x20000000 ≤ (wordLE data 32 4 >>> 8) ||| ((wordLE data 28 4 >>> 26) <<< 24)
    then (((wordLE data 32 4 >>> 8) ||| ((wordLE data 28 4 >>> 26) <<< 24) : Nat) : Int)
         - 0x40000000
    else (((wordLE data 32 4 >>> 8) ||| ((wordLE data 28 4 >>> 26) <<< 24) : Nat) : Int)
  flags := ((wordLE data 32 4 &&& 0xFF : Nat) : Int)

/-- The plain, non-overlapping concatenation reading of the raw 30-bit
latitude: high nibble of byte 27 as bits 0-3, byte 28 as bits 4-11,
byte 29 as bits 12-19, byte 30 as bits 20-27, low 2 bits of byte 31 as
bits 28-29. -/
def lat_raw_concat (data : List Nat) : Nat :=
  byteAt data 27 / 16 + byteAt data 28 * 2 ^ 4 + byteAt data 29 * 2 ^ 12 +
    byteAt data 30 * 2 ^ 20 + byteAt data 31 % 4 * 2 ^ 28

/-- Two's-complement encoding of an integer at bit width `w` (the inverse
of the decoder's bias rule: values in `[-2^(w-1), 2^(w-1))` map to their
`w`-bit raw representation). -/
def encTC (w : Nat) (v : Int) : Nat := (v % ((2 : Int) ^ w)).toNat

/-- Modelled from the spec: the test-oracle encoder the spec asks to
construct (section 8, round-trip property) as the exact inverse of the
documented bit layout of section 4.1; it is not part of the production
source, which only decodes.  Field values are packed little-endian into
36 bytes, with byte 27 shared by altitude and latitude, byte 28 shared
by the `alt_lat1` and `lat_lon1` words, byte 31 shared by latitude and
longitude, and the flags byte at offset 32. -/
def encode (p : TelemetryPacket) : List Nat :=
  let T := p.time_ms.toNat
  let C := encTC 14 p.temp_cC
  let P := p.pressPa.toNat
  let MX := encTC 16 p.mag_x
  let MY := encTC 16 p.mag_y
  let MZ := encTC 16 p.mag_z
  let AX := encTC 16 p.accel_x
  let AY := encTC 16 p.accel_y
  let AZ := encTC 16 p.accel_z
  let GX := encTC 16 p.gyro_x
  let GY := encTC 16 p.gyro_y
  let GZ := encTC 16 p.gyro_z
  let A := encTC 20 p.altitude_cm
  let La := encTC 30 p.lat_1e7
  let Lo := encTC 30 p.lon_1e7
  let F := p.flags.toNat
  let tp := C + P % 4 * 2 ^ 14
  let pp2 := P / 4
  let al := A + La % 2 ^ 12 * 2 ^ 20
  let ll := La / 2 ^ 4 + Lo / 2 ^ 24 * 2 ^ 26
  let lf := F + Lo % 2 ^ 24 * 2 ^ 8
  [T % 256, T / 2 ^ 8 % 256, T / 2 ^ 16 % 256,
   tp % 256, tp / 2 ^ 8 % 256,
   pp2 % 256, pp2 / 2 ^ 8 % 256,
   MX % 256, MX / 2 ^ 8 % 256, MY % 256, MY / 2 ^ 8 % 256, MZ % 256, MZ / 2 ^ 8 % 256,
   AX % 256, AX / 2 ^ 8 % 256, AY % 256, AY / 2 ^ 8 % 256, AZ % 256, AZ / 2 ^ 8 % 256,
   GX % 256, GX / 2 ^ 8 % 256, GY % 256, GY / 2 ^ 8 % 256, GZ % 256, GZ / 2 ^ 8 % 256,
   al % 256, al / 2 ^ 8 % 256, al / 2 ^ 16 % 256, al / 2 ^ 24 % 256,
   ll / 2 ^ 8 % 256, ll / 2 ^ 16 % 256, ll / 2 ^ 24 % 256,
   lf % 256, lf / 2 ^ 8 % 256, lf / 2 ^ 16 % 256, lf / 2 ^ 24 % 256]

/-- Every field lies in its declared signed/unsigned bit-width range
(the ranges of the spec's data-model table). -/
def inRanges (p : TelemetryPacket) : Prop :=
  0 ≤ p.time_ms ∧ p.time_ms < 2 ^ 24 ∧
  -2 ^ 13 ≤ p.temp_cC ∧ p.temp_cC < 2 ^ 13 ∧
  0 ≤ p.pressPa ∧ p.pressPa < 2 ^ 16 ∧
  -2 ^ 15 ≤ p.mag_x ∧ p.mag_x < 2 ^ 15 ∧
  -2 ^ 15 ≤ p.mag_y ∧ p.mag_y < 2 ^ 15 ∧
  -2 ^ 15 ≤ p.mag_z ∧ p.mag_z < 2 ^ 15 ∧
  -2 ^ 15 ≤ p.accel_x ∧ p.accel_x < 2 ^ 15 ∧
  -2 ^ 15 ≤ p.accel_y ∧ p.accel_y < 2 ^ 15 ∧
  -2 ^ 15 ≤ p.accel_z ∧ p.accel_z < 2 ^ 15 ∧
  -2 ^ 15 ≤ p.gyro_x ∧ p.gyro_x < 2 ^ 15 ∧
  -2 ^ 15 ≤ p.gyro_y ∧ p.gyro_y < 2 ^ 15 ∧
  -2 ^ 15 ≤ p.gyro_z ∧ p.gyro_z < 2 ^ 15 ∧
  -2 ^ 19 ≤ p.altitude_cm ∧ p.altitude_cm < 2 ^ 19 ∧
  -2 ^ 29 ≤ p.lat_1e7 ∧ p.lat_1e7 < 2 ^ 29 ∧
  -2 ^ 29 ≤ p.lon_1e7 ∧ p.lon_1e7 < 2 ^ 29 ∧
  0 ≤ p.flags ∧ p.flags < 2 ^ 8

/-- The all-zero 36-byte buffer. -/
def zeros36 : List Nat := List.replicate 36 0

/-- Buffer whose 14-bit temperature subfield has raw value 0x2000. -/
def bufTemp2000 : List Nat := zeros36.set 4 0x20

/-- Buffer whose 14-bit temperature subfield has raw value 0x1FFF. -/
def bufTemp1FFF : List Nat := (zeros36.set 3 0xFF).set 4 0x1F

/-- Buffer whose 20-bit altitude subfield has raw value 0x80000. -/
def bufAlt80000 : List Nat := zeros36.set 27 0x08

/-- Buffer whose 20-bit altitude subfield has raw value 0x7FFFF. -/
def bufAlt7FFFF : List Nat := ((zeros36.set 25 0xFF).set 26 0xFF).set 27 0x07

/-- Buffer with maximal pressure bytes (bytes 5 and 6 both 0xFF). -/
def bufPressMax : List Nat := (zeros36.set 5 0xFF).set 6 0xFF

/-- Buffer with flags byte 0xFF and upper `lon_flags` bits set. -/
def bufFlagsFF : List Nat := (zeros36.set 32 0xFF).set 35 0xAA

/-- A sample frame with every field in its declared range, exercising
negative values and field boundaries. -/
def samplePacket : TelemetryPacket :=
  ⟨123456, -8192, 60000, -1, 2, -3, 100, -200, 300, -5, 6, -7,
   -524288, -123456789, 98765432, 170⟩

/-- In-range bytes of a well-formed buffer are below 256. -/
theorem byteAt_lt (data : List Nat) (hb : isBytes data) (i : Nat) (hi : i < data.length) :
    byteAt data i < 256 := by
  have hg : data.getD i 0 = data[i] := by
    simp [List.getD_eq_getElem?_getD, List.getElem?_eq_getElem hi]
  rw [byteAt, hg]
  exact hb _ (List.getElem_mem hi)

/-- A little-endian word of `len` bytes is below `2 ^ (8 * len)`. -/
theorem wordLE_lt (data : List Nat) (hb : isBytes data) :
    ∀ len start, start + len ≤ data.length → wordLE data start len < 2 ^ (8 * len)
  | 0, _, _ => by simp [wordLE]
  | n + 1, start, h => by
    have h1 : byteAt data start < 256 := byteAt_lt data hb start (by omega)
    have h2 : wordLE data (start + 1) n < 2 ^ (8 * n) :=
      wordLE_lt data hb n (start + 1) (by omega)
    have he : 2 ^ (8 * (n + 1)) = 256 * 2 ^ (8 * n) := by
      rw [Nat.mul_succ, Nat.pow_add]; ring
    simp only [wordLE]
    omega

/-- Words depend only on the bytes they cover. -/
theorem wordLE_congr (d1 d2 : List Nat) :
    ∀ len start, (∀ k, k < len → byteAt d1 (start + k) = byteAt d2 (start + k)) →
      wordLE d1 start len = wordLE d2 start len
  | 0, _, _ => by simp [wordLE]
  | n + 1, start, h => by
    have h0 : byteAt d1 start = byteAt d2 start := by
      have := h 0 (by omega); simpa using this
    have hr : wordLE d1 (start + 1) n = wordLE d2 (start + 1) n :=
      wordLE_congr d1 d2 n (start + 1) fun k hk => by
        have := h (k + 1) (by omega); simpa [Nat.add_assoc, Nat.add_comm 1 k] using this
    simp only [wordLE, h0, hr]

/-- Recombination of a value from its high bits (shifted back into place)
OR'd with its low `b` bits; the two operands may overlap on bits
`a..b-1`, where they agree, so the OR loses nothing. -/
theorem lor_recombine (x a b : Nat) (hab : a ≤ b) :
    ((x >>> a) <<< a) ||| (x % 2 ^ b) = x := by
  apply Nat.eq_of_testBit_eq
  intro i
  rw [Nat.testBit_lor, Nat.testBit_shiftLeft, Nat.testBit_shiftRight, Nat.testBit_mod_two_pow]
  rcases Nat.lt_or_ge i a with h | h
  · have h1 : ¬ a ≤ i := by omega
    have h2 : i < b := by omega
    simp [h1, h2]
  · have h1 : a + (i - a) = i := by omega
    simp only [ge_iff_le, h, decide_eq_true_eq, h1]
    cases hx : x.testBit i <;> simp [h]

/-- On a 36-byte buffer the decoder succeeds and returns exactly the
record of `decodedFields`. -/
theorem parse_eq_ok (data : List Nat) (h : data.length = 36) :
    parse_telemetry_packet data = .ok (decodedFields data) := by
  rw [parse_telemetry_packet, if_neg (by omega)]
  rfl

/-- Setting one byte leaves the others unchanged. -/
theorem byteAt_set_ne (data : List Nat) (i j b : Nat) (hij : i ≠ j) :
    byteAt (data.set i b) j = byteAt data j := by
  simp [byteAt, List.getD_eq_getElem?_getD, List.getElem?_set_ne hij]

/-- Setting an in-range byte stores the new value. -/
theorem byteAt_set_self (data : List Nat) (i b : Nat) (hi : i < data.length) :
    byteAt (data.set i b) i = b := by
  simp [byteAt, List.getD_eq_getElem?_getD, List.getElem?_set_self hi]

/-- The altitude subfield only reads bytes 25-27: buffers agreeing
everywhere but at byte 28 yield the same raw altitude. -/
theorem altitude_raw_eq_of_agree_outside_28 (d1 d2 : List Nat)
    (hagree : ∀ i, i ≠ 28 → byteAt d1 i = byteAt d2 i) :
    wordLE d1 25 4 &&& 0xFFFFF = wordLE d2 25 4 &&& 0xFFFFF := by
  have h25 := hagree 25 (by omega)
  have h26 := hagree 26 (by omega)
  have h27 := hagree 27 (by omega)
  have hm : (0xFFFFF : Nat) = 2 ^ 20 - 1 := by norm_num
  rw [hm, Nat.and_pow_two_sub_one_eq_mod, Nat.and_pow_two_sub_one_eq_mod]
  simp only [wordLE, Nat.reduceAdd]
  rw [h25, h26, h27]
  omega

/-- C1: for every 36-byte buffer, with alt_lat1 the little-endian word of
bytes 25-28 and lat_lon1 that of bytes 28-31, the decoder computes the raw
latitude as ((lat_lon1 AND 0x3FFFFFF) shifted left 4) OR (alt_lat1 shifted
right 20), and lat_1e7 is that raw value minus 0x40000000 when it is at
least 0x20000000, the raw value itself otherwise. -/
theorem C1_latitude (data : List Nat) (h : data.length = 36) :
    ∃ p, parse_telemetry_packet data = .ok p ∧
      p.lat_1e7 =
        (if 0x20000000 ≤ ((wordLE data 28 4 &&& 0x3FFFFFF) <<< 4) ||| (wordLE data 25 4 >>> 20)
         then ((((wordLE data 28 4 &&& 0x3FFFFFF) <<< 4) ||| (wordLE data 25 4 >>> 20) : Nat) : Int)
              - 0x40000000
         else ((((wordLE data 28 4 &&& 0x3FFFFFF) <<< 4) ||| (wordLE data 25 4 >>> 20) : Nat) : Int)) := by
  rw [parse_telemetry_packet, if_neg (by omega)]
  exact ⟨_, rfl, rfl⟩

/-- Witness for C1 at the all-zero buffer. -/
theorem C1_latitude_witness :
    ∃ p, parse_telemetry_packet (List.replicate 36 0) = .ok p ∧
      p.lat_1e7 =
        (if 0x20000000 ≤ ((wordLE (List.replicate 36 0) 28 4 &&& 0x3FFFFFF) <<< 4) |||
            (wordLE (List.replicate 36 0) 25 4 >>> 20)
         then ((((wordLE (List.replicate 36 0) 28 4 &&& 0x3FFFFFF) <<< 4) |||
            (wordLE (List.replicate 36 0) 25 4 >>> 20) : Nat) : Int) - 0x40000000
         else ((((wordLE (List.replicate 36 0) 28 4 &&& 0x3FFFFFF) <<< 4) |||
            (wordLE (List.replicate 36 0) 25 4 >>> 20) : Nat) : Int)) :=
  C1_latitude (List.replicate 36 0) (by decide)

/-- C3: a buffer whose length is not 36 fails with the invalid-length
error carrying the observed length, and no frame is produced. -/
theorem C3_invalid_length (data : List Nat) (h : data.length ≠ 36) :
    parse_telemetry_packet data = .error (.invalidLength data.length) := by
  rw [parse_telemetry_packet, if_pos h]

/-- Witness for C3 at the empty buffer. -/
theorem C3_invalid_length_witness :
    parse_telemetry_packet [] = .error (.invalidLength 0) :=
  C3_invalid_length [] (by decide)

/-- C5 fails as stated: at the buffer with bytes 5 and 6 both 0xFF the
decoded pressPa is 262140, outside the unsigned 16-bit range. -/
theorem C5_counterexample :
    ∃ p, parse_telemetry_packet bufPressMax = .ok p ∧ 65535 < p.pressPa := by
  refine ⟨_, parse_eq_ok bufPressMax (by decide), ?_⟩
  decide

/-- C5 amended: for every 36-byte buffer the decoded pressPa is an
unsigned 18-bit value, lying in the range 0..262143. -/
theorem C5_press_range (data : List Nat) (h : data.length = 36) (hb : isBytes data) :
    ∃ p, parse_telemetry_packet data = .ok p ∧ 0 ≤ p.pressPa ∧ p.pressPa ≤ 262143 := by
  refine ⟨_, parse_eq_ok data h, ?_, ?_⟩
  · exact Int.natCast_nonneg _
  · show (((wordLE data 5 2 <<< 2) ||| ((wordLE data 3 2 >>> 14) &&& 0x03) : Nat) : Int) ≤ 262143
    have h2 : wordLE data 5 2 < 2 ^ 16 := wordLE_lt data hb 2 5 (by omega)
    have h1 : (wordLE data 3 2 >>> 14) &&& 0x03 < 2 ^ 18 := by
      have hm : (0x03 : Nat) = 2 ^ 2 - 1 := by norm_num
      rw [hm, Nat.and_pow_two_sub_one_eq_mod]
      have := Nat.mod_lt (wordLE data 3 2 >>> 14) (show 0 < 2 ^ 2 by norm_num)
      omega
    have hsl : wordLE data 5 2 <<< 2 < 2 ^ 18 := by
      rw [Nat.shiftLeft_eq]
      omega
    have hor := Nat.or_lt_two_pow hsl h1
    omega

/-- Witness for the amended C5 at the all-zero buffer. -/
theorem C5_press_range_witness :
    ∃ p, parse_telemetry_packet zeros36 = .ok p ∧ 0 ≤ p.pressPa ∧ p.pressPa ≤ 262143 :=
  C5_press_range zeros36 (by decide) (by simp only [isBytes]; decide)

/-- C4 fails as stated: no pair of 36-byte buffers differing only in
byte 28 can change altitude_cm at all (that byte is masked out of the
low 20 bits of alt_lat1), so no such pair changes both altitude_cm and
lat_1e7. -/
theorem C4_counterexample :
    ¬ ∃ (d1 d2 : List Nat) (p1 p2 : TelemetryPacket),
        d1.length = 36 ∧ d2.length = 36 ∧
        (∀ i, i ≠ 28 → byteAt d1 i = byteAt d2 i) ∧
        byteAt d1 28 ≠ byteAt d2 28 ∧
        parse_telemetry_packet d1 = .ok p1 ∧ parse_telemetry_packet d2 = .ok p2 ∧
        p1.altitude_cm ≠ p2.altitude_cm ∧ p1.lat_1e7 ≠ p2.lat_1e7 := by
  rintro ⟨d1, d2, p1, p2, h1, h2, hagree, -, hp1, hp2, halt, -⟩
  rw [parse_eq_ok d1 h1] at hp1
  rw [parse_eq_ok d2 h2] at hp2
  simp only [Except.ok.injEq] at hp1 hp2
  subst hp1
  subst hp2
  apply halt
  show (decodedFields d1).altitude_cm = (decodedFields d2).altitude_cm
  simp only [decodedFields]
  rw [altitude_raw_eq_of_agree_outside_28 d1 d2 hagree]

/-- C4 amended: a change confined to byte 28 does affect lat_1e7 (there
is a pair of 36-byte buffers differing only there, with different
decoded lat_1e7), but it never affects altitude_cm: any two 36-byte
buffers agreeing outside byte 28 decode to the same altitude_cm. -/
theorem C4_lat_only :
    (∀ (d1 d2 : List Nat) (p1 p2 : TelemetryPacket),
        d1.length = 36 → d2.length = 36 →
        (∀ i, i ≠ 28 → byteAt d1 i = byteAt d2 i) →
        parse_telemetry_packet d1 = .ok p1 → parse_telemetry_packet d2 = .ok p2 →
        p1.altitude_cm = p2.altitude_cm) ∧
    (∃ (d1 d2 : List Nat) (p1 p2 : TelemetryPacket),
        d1.length = 36 ∧ d2.length = 36 ∧
        (∀ i, i ≠ 28 → byteAt d1 i = byteAt d2 i) ∧
        byteAt d1 28 ≠ byteAt d2 28 ∧
        parse_telemetry_packet d1 = .ok p1 ∧ parse_telemetry_packet d2 = .ok p2 ∧
        p1.altitude_cm = p2.altitude_cm ∧ p1.lat_1e7 ≠ p2.lat_1e7) := by
  constructor
  · intro d1 d2 p1 p2 h1 h2 hagree hp1 hp2
    rw [parse_eq_ok d1 h1] at hp1
    rw [parse_eq_ok d2 h2] at hp2
    simp only [Except.ok.injEq] at hp1 hp2
    subst hp1
    subst hp2
    show (decodedFields d1).altitude_cm = (decodedFields d2).altitude_cm
    simp only [decodedFields]
    rw [altitude_raw_eq_of_agree_outside_28 d1 d2 hagree]
  · refine ⟨zeros36, zeros36.set 28 1, _, _, by decide, by decide, ?_, by decide,
      parse_eq_ok _ (by decide), parse_eq_ok _ (by decide), by decide, by decide⟩
    intro i hi
    exact (byteAt_set_ne zeros36 28 i 1 (Ne.symm hi)).symm

/-- C6: on any 36-byte buffer whose 14-bit temperature subfield (low 14
bits of the little-endian word of bytes 3-4) is 0x2000 the decoder
returns temp_cC = -8192, and on raw value 0x1FFF it returns 8191. -/
theorem C6_temp_boundary (data : List Nat) (h : data.length = 36) :
    (wordLE data 3 2 &&& 0x3FFF = 0x2000 →
      ∃ p, parse_telemetry_packet data = .ok p ∧ p.temp_cC = -8192) ∧
    (wordLE data 3 2 &&& 0x3FFF = 0x1FFF →
      ∃ p, parse_telemetry_packet data = .ok p ∧ p.temp_cC = 8191) := by
  constructor
  · intro hr
    refine ⟨_, parse_eq_ok data h, ?_⟩
    simp only [decodedFields, hr]
    norm_num
  · intro hr
    refine ⟨_, parse_eq_ok data h, ?_⟩
    simp only [decodedFields, hr]
    norm_num

/-- Witness for C6 at buffers realizing raw values 0x2000 and 0x1FFF. -/
theorem C6_temp_boundary_witness :
    (∃ p, parse_telemetry_packet bufTemp2000 = .ok p ∧ p.temp_cC = -8192) ∧
    (∃ p, parse_telemetry_packet bufTemp1FFF = .ok p ∧ p.temp_cC = 8191) :=
  ⟨(C6_temp_boundary bufTemp2000 (by decide)).1 (by decide),
   (C6_temp_boundary bufTemp1FFF (by decide)).2 (by decide)⟩

/-- C7: on any 36-byte buffer whose 20-bit altitude subfield (low 20
bits of the little-endian word of bytes 25-28) is 0x80000 the decoder
returns altitude_cm = -524288, and on raw value 0x7FFFF it returns
524287. -/
theorem C7_alt_boundary (data : List Nat) (h : data.length = 36) :
    (wordLE data 25 4 &&& 0xFFFFF = 0x80000 →
      ∃ p, parse_telemetry_packet data = .ok p ∧ p.altitude_cm = -524288) ∧
    (wordLE data 25 4 &&& 0xFFFFF = 0x7FFFF →
      ∃ p, parse_telemetry_packet data = .ok p ∧ p.altitude_cm = 524287) := by
  constructor
  · intro hr
    refine ⟨_, parse_eq_ok data h, ?_⟩
    simp only [decodedFields, hr]
    norm_num
  · intro hr
    refine ⟨_, parse_eq_ok data h, ?_⟩
    simp only [decodedFields, hr]
    norm_num

/-- Witness for C7 at buffers realizing raw values 0x80000 and 0x7FFFF. -/
theorem C7_alt_boundary_witness :
    (∃ p, parse_telemetry_packet bufAlt80000 = .ok p ∧ p.altitude_cm = -524288) ∧
    (∃ p, parse_telemetry_packet bufAlt7FFFF = .ok p ∧ p.altitude_cm = 524287) :=
  ⟨(C7_alt_boundary bufAlt80000 (by decide)).1 (by decide),
   (C7_alt_boundary bufAlt7FFFF (by decide)).2 (by decide)⟩

/-- C9: every buffer of length exactly 36 decodes successfully (the
error branch is unreachable on correctly sized input), and the all-zero
buffer decodes to the frame whose 16 fields are all zero. -/
theorem C9_no_fatal (data : List Nat) (h : data.length = 36) :
    (∃ p, parse_telemetry_packet data = .ok p) ∧
      parse_telemetry_packet zeros36 =
        .ok ⟨0, 0, 0, 0, 0, 0, 0, 0, 0, 0, 0, 0, 0, 0, 0, 0⟩ :=
  ⟨⟨_, parse_eq_ok data h⟩, by rfl⟩

/-- C2: for every 36-byte buffer of bytes, with lon_flags the word of
bytes 32-35 and lat_lon1 the word of bytes 28-31, the decoder forms the
raw longitude as (lon_flags shifted right 8) OR (top 6 bits of lat_lon1
shifted into bits 24-29), applies the 30-bit two's-complement bias, and
returns flags equal to the low byte of lon_flags unmodified; replacing
that low byte (byte 32) never changes lon_1e7. -/
theorem C2_longitude (data : List Nat) (h : data.length = 36) (hb : isBytes data) :
    ∃ p, parse_telemetry_packet data = .ok p ∧
      p.lon_1e7 =
        (if 0x20000000 ≤ (wordLE data 32 4 >>> 8) ||| ((wordLE data 28 4 >>> 26) <<< 24)
         then (((wordLE data 32 4 >>> 8) ||| ((wordLE data 28 4 >>> 26) <<< 24) : Nat) : Int)
              - 0x40000000
         else (((wordLE data 32 4 >>> 8) ||| ((wordLE data 28 4 >>> 26) <<< 24) : Nat) : Int)) ∧
      p.flags = ((wordLE data 32 4 &&& 0xFF : Nat) : Int) ∧
      ∀ b, b < 256 → ∃ q, parse_telemetry_packet (data.set 32 b) = .ok q ∧
        q.lon_1e7 = p.lon_1e7 := by
  refine ⟨_, parse_eq_ok data h, rfl, rfl, ?_⟩
  intro b hblt
  refine ⟨_, parse_eq_ok _ (by simpa using h), ?_⟩
  have hlat : wordLE (data.set 32 b) 28 4 = wordLE data 28 4 :=
    wordLE_congr _ _ 4 28 fun k hk => byteAt_set_ne data 32 (28 + k) b (by omega)
  have h33 : byteAt (data.set 32 b) 33 = byteAt data 33 := byteAt_set_ne data 32 33 b (by omega)
  have h34 : byteAt (data.set 32 b) 34 = byteAt data 34 := byteAt_set_ne data 32 34 b (by omega)
  have h35 : byteAt (data.set 32 b) 35 = byteAt data 35 := byteAt_set_ne data 32 35 b (by omega)
  have h32 : byteAt (data.set 32 b) 32 = b := byteAt_set_self data 32 b (by omega)
  have hd32 : byteAt data 32 < 256 := byteAt_lt data hb 32 (by omega)
  have hsh : wordLE (data.set 32 b) 32 4 >>> 8 = wordLE data 32 4 >>> 8 := by
    simp only [wordLE, Nat.reduceAdd, h32, h33, h34, h35, Nat.shiftRight_eq_div_pow]
    omega
  show (decodedFields (data.set 32 b)).lon_1e7 = (decodedFields data).lon_1e7
  simp only [decodedFields, hlat, hsh]

/-- Witness for C2 at the buffer with flags byte 0xFF and high
`lon_flags` bits set. -/
theorem C2_longitude_witness :
    ∃ p, parse_telemetry_packet bufFlagsFF = .ok p ∧
      p.lon_1e7 =
        (if 0x20000000 ≤ (wordLE bufFlagsFF 32 4 >>> 8) |||
            ((wordLE bufFlagsFF 28 4 >>> 26) <<< 24)
         then (((wordLE bufFlagsFF 32 4 >>> 8) |||
            ((wordLE bufFlagsFF 28 4 >>> 26) <<< 24) : Nat) : Int) - 0x40000000
         else (((wordLE bufFlagsFF 32 4 >>> 8) |||
            ((wordLE bufFlagsFF 28 4 >>> 26) <<< 24) : Nat) : Int)) ∧
      p.flags = ((wordLE bufFlagsFF 32 4 &&& 0xFF : Nat) : Int) ∧
      ∀ b, b < 256 → ∃ q, parse_telemetry_packet (bufFlagsFF.set 32 b) = .ok q ∧
        q.lon_1e7 = p.lon_1e7 :=
  C2_longitude bufFlagsFF (by decide) (by simp only [isBytes]; decide)

/-- C10: the code's raw 30-bit latitude, whose two OR'd operands overlap
on bit positions 4-11 where both carry byte 28, equals the plain
non-overlapping concatenation of the latitude bits. -/
theorem C10_lat_overlap (data : List Nat) (h : data.length = 36) (hb : isBytes data) :
    ((wordLE data 28 4 &&& 0x3FFFFFF) <<< 4) ||| (wordLE data 25 4 >>> 20) =
      lat_raw_concat data := by
  have h25 := byteAt_lt data hb 25 (by omega)
  have h26 := byteAt_lt data hb 26 (by omega)
  have h27 := byteAt_lt data hb 27 (by omega)
  have h28 := byteAt_lt data hb 28 (by omega)
  have h29 := byteAt_lt data hb 29 (by omega)
  have h30 := byteAt_lt data hb 30 (by omega)
  have h31 := byteAt_lt data hb 31 (by omega)
  have hm : (0x3FFFFFF : Nat) = 2 ^ 26 - 1 := by norm_num
  rw [hm, Nat.and_pow_two_sub_one_eq_mod]
  have e1 : wordLE data 28 4 % 2 ^ 26 = lat_raw_concat data >>> 4 := by
    rw [Nat.shiftRight_eq_div_pow]
    simp only [wordLE, lat_raw_concat, Nat.reduceAdd]
    omega
  have e2 : wordLE data 25 4 >>> 20 = lat_raw_concat data % 2 ^ 12 := by
    rw [Nat.shiftRight_eq_div_pow]
    simp only [wordLE, lat_raw_concat, Nat.reduceAdd]
    omega
  rw [e1, e2]
  exact lor_recombine (lat_raw_concat data) 4 12 (by omega)

/-- Witness for C10 at a buffer with a non-trivial latitude bit pattern. -/
theorem C10_lat_overlap_witness :
    ((wordLE bufAlt7FFFF 28 4 &&& 0x3FFFFFF) <<< 4) ||| (wordLE bufAlt7FFFF 25 4 >>> 20) =
      lat_raw_concat bufAlt7FFFF :=
  C10_lat_overlap bufAlt7FFFF (by decide) (by simp only [isBytes]; decide)

/-- Bytes 3-4 of an encoded frame, as a word (by unfolding). -/
theorem enc_w3 (p : TelemetryPacket) :
    wordLE (encode p) 3 2 =
      (encTC 14 p.temp_cC + p.pressPa.toNat % 4 * 2 ^ 14) % 256 +
        256 * ((encTC 14 p.temp_cC + p.pressPa.toNat % 4 * 2 ^ 14) / 2 ^ 8 % 256 + 256 * 0) :=
  rfl

/-- Bytes 5-6 of an encoded frame, as a word (by unfolding). -/
theorem enc_w5 (p : TelemetryPacket) :
    wordLE (encode p) 5 2 =
      p.pressPa.toNat / 4 % 256 + 256 * (p.pressPa.toNat / 4 / 2 ^ 8 % 256 + 256 * 0) :=
  rfl

/-- Bytes 25-28 of an encoded frame, as a word (by unfolding). -/
theorem enc_w25 (p : TelemetryPacket) :
    wordLE (encode p) 25 4 =
      (encTC 20 p.altitude_cm + encTC 30 p.lat_1e7 % 2 ^ 12 * 2 ^ 20) % 256 +
        256 * ((encTC 20 p.altitude_cm + encTC 30 p.lat_1e7 % 2 ^ 12 * 2 ^ 20) / 2 ^ 8 % 256 +
          256 * ((encTC 20 p.altitude_cm + encTC 30 p.lat_1e7 % 2 ^ 12 * 2 ^ 20) / 2 ^ 16 % 256 +
            256 * ((encTC 20 p.altitude_cm + encTC 30 p.lat_1e7 % 2 ^ 12 * 2 ^ 20) / 2 ^ 24 % 256 +
              256 * 0))) :=
  rfl

/-- Bytes 28-31 of an encoded frame, as a word (by unfolding). -/
theorem enc_w28 (p : TelemetryPacket) :
    wordLE (encode p) 28 4 =
      (encTC 20 p.altitude_cm + encTC 30 p.lat_1e7 % 2 ^ 12 * 2 ^ 20) / 2 ^ 24 % 256 +
        256 * ((encTC 30 p.lat_1e7 / 2 ^ 4 + encTC 30 p.lon_1e7 / 2 ^ 24 * 2 ^ 26) / 2 ^ 8 % 256 +
          256 * ((encTC 30 p.lat_1e7 / 2 ^ 4 + encTC 30 p.lon_1e7 / 2 ^ 24 * 2 ^ 26) / 2 ^ 16 % 256 +
            256 * ((encTC 30 p.lat_1e7 / 2 ^ 4 + encTC 30 p.lon_1e7 / 2 ^ 24 * 2 ^ 26) / 2 ^ 24 % 256 +
              256 * 0))) :=
  rfl

/-- Bytes 32-35 of an encoded frame, as a word (by unfolding). -/
theorem enc_w32 (p : TelemetryPacket) :
    wordLE (encode p) 32 4 =
      (p.flags.toNat + encTC 30 p.lon_1e7 % 2 ^ 24 * 2 ^ 8) % 256 +
        256 * ((p.flags.toNat + encTC 30 p.lon_1e7 % 2 ^ 24 * 2 ^ 8) / 2 ^ 8 % 256 +
          256 * ((p.flags.toNat + encTC 30 p.lon_1e7 % 2 ^ 24 * 2 ^ 8) / 2 ^ 16 % 256 +
            256 * ((p.flags.toNat + encTC 30 p.lon_1e7 % 2 ^ 24 * 2 ^ 8) / 2 ^ 24 % 256 +
              256 * 0))) :=
  rfl

/-- Decoding the time word of an encoded in-range frame. -/
theorem enc_timeRaw (p : TelemetryPacket) (h1 : p.time_ms < 2 ^ 24) :
    wordLE (encode p) 0 3 = p.time_ms.toNat := by
  have e : wordLE (encode p) 0 3 =
      p.time_ms.toNat % 256 + 256 * (p.time_ms.toNat / 2 ^ 8 % 256 +
        256 * (p.time_ms.toNat / 2 ^ 16 % 256 + 256 * 0)) := rfl
  omega

/-- Decoding the 14-bit temperature subfield of an encoded frame. -/
theorem enc_tempRaw (p : TelemetryPacket) :
    wordLE (encode p) 3 2 &&& 0x3FFF = encTC 14 p.temp_cC := by
  have hC : encTC 14 p.temp_cC < 2 ^ 14 := by simp only [encTC]; omega
  rw [enc_w3, show (0x3FFF : Nat) = 2 ^ 14 - 1 by norm_num, Nat.and_pow_two_sub_one_eq_mod]
  omega

/-- Decoding the 18-bit pressure field of an encoded in-range frame. -/
theorem enc_pressRaw (p : TelemetryPacket) (h1 : p.pressPa < 2 ^ 16) :
    (wordLE (encode p) 5 2 <<< 2) ||| ((wordLE (encode p) 3 2 >>> 14) &&& 0x03) =
      p.pressPa.toNat := by
  have hC : encTC 14 p.temp_cC < 2 ^ 14 := by simp only [encTC]; omega
  have hP : p.pressPa.toNat < 2 ^ 16 := by omega
  have e1 : wordLE (encode p) 5 2 <<< 2 = (p.pressPa.toNat >>> 2) <<< 2 := by
    rw [enc_w5]
    congr 1
    rw [Nat.shiftRight_eq_div_pow]
    omega
  have e2 : (wordLE (encode p) 3 2 >>> 14) &&& 0x03 = p.pressPa.toNat % 2 ^ 2 := by
    rw [enc_w3, show (0x03 : Nat) = 2 ^ 2 - 1 by norm_num, Nat.and_pow_two_sub_one_eq_mod,
      Nat.shiftRight_eq_div_pow]
    omega
  rw [e1, e2]
  exact lor_recombine _ 2 2 le_rfl

/-- Decoding a signed 16-bit sensor word of an encoded frame. -/
theorem enc_wv7 (p : TelemetryPacket) : wordLE (encode p) 7 2 = encTC 16 p.mag_x := by
  have e : wordLE (encode p) 7 2 =
      encTC 16 p.mag_x % 256 + 256 * (encTC 16 p.mag_x / 2 ^ 8 % 256 + 256 * 0) := rfl
  have hb : encTC 16 p.mag_x < 2 ^ 16 := by simp only [encTC]; omega
  omega

/-- Decoding a signed 16-bit sensor word of an encoded frame. -/
theorem enc_wv9 (p : TelemetryPacket) : wordLE (encode p) 9 2 = encTC 16 p.mag_y := by
  have e : wordLE (encode p) 9 2 =
      encTC 16 p.mag_y % 256 + 256 * (encTC 16 p.mag_y / 2 ^ 8 % 256 + 256 * 0) := rfl
  have hb : encTC 16 p.mag_y < 2 ^ 16 := by simp only [encTC]; omega
  omega

/-- Decoding a signed 16-bit sensor word of an encoded frame. -/
theorem enc_wv11 (p : TelemetryPacket) : wordLE (encode p) 11 2 = encTC 16 p.mag_z := by
  have e : wordLE (encode p) 11 2 =
      encTC 16 p.mag_z % 256 + 256 * (encTC 16 p.mag_z / 2 ^ 8 % 256 + 256 * 0) := rfl
  have hb : encTC 16 p.mag_z < 2 ^ 16 := by simp only [encTC]; omega
  omega

/-- Decoding a signed 16-bit sensor word of an encoded frame. -/
theorem enc_wv13 (p : TelemetryPacket) : wordLE (encode p) 13 2 = encTC 16 p.accel_x := by
  have e : wordLE (encode p) 13 2 =
      encTC 16 p.accel_x % 256 + 256 * (encTC 16 p.accel_x / 2 ^ 8 % 256 + 256 * 0) := rfl
  have hb : encTC 16 p.accel_x < 2 ^ 16 := by simp only [encTC]; omega
  omega

/-- Decoding a signed 16-bit sensor word of an encoded frame. -/
theorem enc_wv15 (p : TelemetryPacket) : wordLE (encode p) 15 2 = encTC 16 p.accel_y := by
  have e : wordLE (encode p) 15 2 =
      encTC 16 p.accel_y % 256 + 256 * (encTC 16 p.accel_y / 2 ^ 8 % 256 + 256 * 0) := rfl
  have hb : encTC 16 p.accel_y < 2 ^ 16 := by simp only [encTC]; omega
  omega

/-- Decoding a signed 16-bit sensor word of an encoded frame. -/
theorem enc_wv17 (p : TelemetryPacket) : wordLE (encode p) 17 2 = encTC 16 p.accel_z := by
  have e : wordLE (encode p) 17 2 =
      encTC 16 p.accel_z % 256 + 256 * (encTC 16 p.accel_z / 2 ^ 8 % 256 + 256 * 0) := rfl
  have hb : encTC 16 p.accel_z < 2 ^ 16 := by simp only [encTC]; omega
  omega

/-- Decoding a signed 16-bit sensor word of an encoded frame. -/
theorem enc_wv19 (p : TelemetryPacket) : wordLE (encode p) 19 2 = encTC 16 p.gyro_x := by
  have e : wordLE (encode p) 19 2 =
      encTC 16 p.gyro_x % 256 + 256 * (encTC 16 p.gyro_x / 2 ^ 8 % 256 + 256 * 0) := rfl
  have hb : encTC 16 p.gyro_x < 2 ^ 16 := by simp only [encTC]; omega
  omega

/-- Decoding a signed 16-bit sensor word of an encoded frame. -/
theorem enc_wv21 (p : TelemetryPacket) : wordLE (encode p) 21 2 = encTC 16 p.gyro_y := by
  have e : wordLE (encode p) 21 2 =
      encTC 16 p.gyro_y % 256 + 256 * (encTC 16 p.gyro_y / 2 ^ 8 % 256 + 256 * 0) := rfl
  have hb : encTC 16 p.gyro_y < 2 ^ 16 := by simp only [encTC]; omega
  omega

/-- Decoding a signed 16-bit sensor word of an encoded frame. -/
theorem enc_wv23 (p : TelemetryPacket) : wordLE (encode p) 23 2 = encTC 16 p.gyro_z := by
  have e : wordLE (encode p) 23 2 =
      encTC 16 p.gyro_z % 256 + 256 * (encTC 16 p.gyro_z / 2 ^ 8 % 256 + 256 * 0) := rfl
  have hb : encTC 16 p.gyro_z < 2 ^ 16 := by simp only [encTC]; omega
  omega

/-- Decoding the 20-bit altitude subfield of an encoded frame. -/
theorem enc_altRaw (p : TelemetryPacket) :
    wordLE (encode p) 25 4 &&& 0xFFFFF = encTC 20 p.altitude_cm := by
  have hA : encTC 20 p.altitude_cm < 2 ^ 20 := by simp only [encTC]; omega
  have hLa : encTC 30 p.lat_1e7 < 2 ^ 30 := by simp only [encTC]; omega
  rw [enc_w25, show (0xFFFFF : Nat) = 2 ^ 20 - 1 by norm_num, Nat.and_pow_two_sub_one_eq_mod]
  omega

/-- Decoding the raw 30-bit latitude of an encoded frame. -/
theorem enc_latRaw (p : TelemetryPacket) :
    ((wordLE (encode p) 28 4 &&& 0x3FFFFFF) <<< 4) ||| (wordLE (encode p) 25 4 >>> 20) =
      encTC 30 p.lat_1e7 := by
  have hA : encTC 20 p.altitude_cm < 2 ^ 20 := by simp only [encTC]; omega
  have hLa : encTC 30 p.lat_1e7 < 2 ^ 30 := by simp only [encTC]; omega
  have hLo : encTC 30 p.lon_1e7 < 2 ^ 30 := by simp only [encTC]; omega
  have e1 : wordLE (encode p) 28 4 &&& 0x3FFFFFF = encTC 30 p.lat_1e7 >>> 4 := by
    rw [enc_w28, show (0x3FFFFFF : Nat) = 2 ^ 26 - 1 by norm_num,
      Nat.and_pow_two_sub_one_eq_mod, Nat.shiftRight_eq_div_pow]
    omega
  have e2 : wordLE (encode p) 25 4 >>> 20 = encTC 30 p.lat_1e7 % 2 ^ 12 := by
    rw [enc_w25, Nat.shiftRight_eq_div_pow]
    omega
  rw [e1, e2]
  exact lor_recombine _ 4 12 (by omega)

/-- Decoding the raw 30-bit longitude of an encoded in-range frame. -/
theorem enc_lonRaw (p : TelemetryPacket) (hf : p.flags < 2 ^ 8) :
    (wordLE (encode p) 32 4 >>> 8) ||| ((wordLE (encode p) 28 4 >>> 26) <<< 24) =
      encTC 30 p.lon_1e7 := by
  have hA : encTC 20 p.altitude_cm < 2 ^ 20 := by simp only [encTC]; omega
  have hLa : encTC 30 p.lat_1e7 < 2 ^ 30 := by simp only [encTC]; omega
  have hLo : encTC 30 p.lon_1e7 < 2 ^ 30 := by simp only [encTC]; omega
  have hF : p.flags.toNat < 2 ^ 8 := by omega
  have e1 : wordLE (encode p) 32 4 >>> 8 = encTC 30 p.lon_1e7 % 2 ^ 24 := by
    rw [enc_w32, Nat.shiftRight_eq_div_pow]
    omega
  have e2 : wordLE (encode p) 28 4 >>> 26 = encTC 30 p.lon_1e7 / 2 ^ 24 := by
    rw [enc_w28, Nat.shiftRight_eq_div_pow]
    omega
  have e3 : (encTC 30 p.lon_1e7 / 2 ^ 24) <<< 24 = (encTC 30 p.lon_1e7 >>> 24) <<< 24 := by
    rw [Nat.shiftRight_eq_div_pow]
  rw [e1, e2, e3, Nat.lor_comm]
  exact lor_recombine _ 24 24 le_rfl

/-- Decoding the flags byte of an encoded in-range frame. -/
theorem enc_flagsRaw (p : TelemetryPacket) (hf : p.flags < 2 ^ 8) :
    wordLE (encode p) 32 4 &&& 0xFF = p.flags.toNat := by
  have hLo : encTC 30 p.lon_1e7 < 2 ^ 30 := by simp only [encTC]; omega
  have hF : p.flags.toNat < 2 ^ 8 := by omega
  rw [enc_w32, show (0xFF : Nat) = 2 ^ 8 - 1 by norm_num, Nat.and_pow_two_sub_one_eq_mod]
  omega

/-- C8: a frame whose 16 field values lie in their declared bit-width
ranges is reproduced exactly by decoding its encoding under the inverse
of the documented bit layout. -/
theorem C8_roundtrip (p : TelemetryPacket) (h : inRanges p) :
    parse_telemetry_packet (encode p) = .ok p := by
  obtain ⟨ht0, ht1, hc0, hc1, hp0, hp1, hmx0, hmx1, hmy0, hmy1, hmz0, hmz1,
    hax0, hax1, hay0, hay1, haz0, haz1, hgx0, hgx1, hgy0, hgy1, hgz0, hgz1,
    hal0, hal1, hla0, hla1, hlo0, hlo1, hf0, hf1⟩ := h
  rw [parse_eq_ok (encode p) rfl]
  refine congrArg Except.ok ?_
  apply TelemetryPacket.ext
  · simp only [decodedFields]
    rw [enc_timeRaw p (by omega)]
    omega
  · simp only [decodedFields, enc_tempRaw, encTC]
    split <;> omega
  · simp only [decodedFields]
    rw [enc_pressRaw p (by omega)]
    omega
  · simp only [decodedFields, int16LE, enc_wv7, encTC]
    split <;> omega
  · simp only [decodedFields, int16LE, enc_wv9, encTC]
    split <;> omega
  · simp only [decodedFields, int16LE, enc_wv11, encTC]
    split <;> omega
  · simp only [decodedFields, int16LE, enc_wv13, encTC]
    split <;> omega
  · simp only [decodedFields, int16LE, enc_wv15, encTC]
    split <;> omega
  · simp only [decodedFields, int16LE, enc_wv17, encTC]
    split <;> omega
  · simp only [decodedFields, int16LE, enc_wv19, encTC]
    split <;> omega
  · simp only [decodedFields, int16LE, enc_wv21, encTC]
    split <;> omega
  · simp only [decodedFields, int16LE, enc_wv23, encTC]
    split <;> omega
  · simp only [decodedFields, enc_altRaw, encTC]
    split <;> omega
  · simp only [decodedFields, enc_latRaw, encTC]
    split <;> omega
  · simp only [decodedFields]
    rw [enc_lonRaw p (by omega)]
    simp only [encTC]
    split <;> omega
  · simp only [decodedFields]
    rw [enc_flagsRaw p (by omega)]
    omega

/-- Witness for C8 at a concrete in-range frame. -/
theorem C8_roundtrip_witness :
    parse_telemetry_packet (encode samplePacket) = .ok samplePacket :=
  C8_roundtrip samplePacket (by simp only [inRanges]; decide)

/-- Witness for C9 at the all-zero buffer. -/
theorem C9_no_fatal_witness :
    (∃ p, parse_telemetry_packet zeros36 = .ok p) ∧
      parse_telemetry_packet zeros36 =
        .ok ⟨0, 0, 0, 0, 0, 0, 0, 0, 0, 0, 0, 0, 0, 0, 0, 0⟩ :=
  C9_no_fatal zeros36 (by decide)

end CanSat
